import Mathlib

/-!
Verification development for the webcapztechportal repository.

The definitions below are a shallow embedding of the parts of the source
relevant to the user-provisioning workflow, the de-provisioning workflow,
the role store and the row-level authorization policies:

* the `user_role` enum and the `get_current_user_role` SQL function
  (migration creating `user_roles`);
* the tables `profiles`, `user_roles`, `students`, `staff` together with
  their primary-key / foreign-key / uniqueness constraints and the
  `ON DELETE CASCADE` edges declared in the migrations;
* the `admin-create-user` edge function (provisioning with rollback);
* the `admin-delete-user` edge function (best-effort de-provisioning);
* the client-side `UserRegistration.handleSubmit` flow (edge-function call
  followed by an optional profile-picture upload);
* the row-level security policies on `attendance_records` and `qr_codes`.

Collaborator failures (identity provider, database, storage) are injected
through an explicit `Faults` record; the constraint-driven failures
(duplicate email, duplicate student id, enum violation, ...) are computed
from the database state itself, mirroring the constraints declared in the
SQL migrations.  Each workflow run also produces a trace of the mutation
calls it attempted, in order.
-/

namespace WebPortal

/-- The `user_role` enum from the migrations: `('admin', 'staff', 'student')`. -/
inductive Role where
  | admin
  | staff
  | student
deriving DecidableEq, Repr

/-- The `CASE role WHEN 'admin' THEN 1 WHEN 'staff' THEN 2 WHEN 'student' THEN 3 END`
ordering key used by `get_current_user_role`. -/
def Role.precedence : Role → Nat
  | .admin => 1
  | .staff => 2
  | .student => 3

/-- A row of `auth.users` (the identity provider's account table): id and email. -/
structure AuthUser where
  id : Nat
  email : String
deriving DecidableEq, Repr

/-- A row of `public.profiles`. -/
structure ProfileRow where
  id : Nat
  email : String
  full_name : String
  phone : Option String
  address : Option String
  profile_picture_url : Option String
deriving DecidableEq, Repr

/-- A row of `public.user_roles`. -/
structure UserRoleRow where
  user_id : Nat
  role : Role
  created_by : Option Nat
deriving DecidableEq, Repr

/-- A row of `public.students`. -/
structure StudentRow where
  id : Nat
  user_id : Nat
  student_id : String
  course : String
  semester : Nat
  emergency_contact : Option String
  registered_by : Option Nat
deriving DecidableEq, Repr

/-- A row of `public.staff`. -/
structure StaffRow where
  id : Nat
  user_id : Nat
  employee_id : String
  department : String
  position : String
deriving DecidableEq, Repr

/-- The portion of the database the provisioning workflow touches.
`nextId` is the source of fresh identifiers (modelling `gen_random_uuid`
and identity-provider id generation). -/
structure DB where
  authUsers : List AuthUser
  profiles : List ProfileRow
  userRoles : List UserRoleRow
  students : List StudentRow
  staff : List StaffRow
  nextId : Nat
deriving DecidableEq, Repr

/-- All identifiers stored in the database are strictly below the fresh-id
counter, so a newly generated id collides with nothing. -/
def DB.Fresh (db : DB) : Prop :=
  (∀ u ∈ db.authUsers, u.id < db.nextId) ∧
  (∀ p ∈ db.profiles, p.id < db.nextId) ∧
  (∀ r ∈ db.userRoles, r.user_id < db.nextId) ∧
  (∀ s ∈ db.students, s.user_id < db.nextId) ∧
  (∀ t ∈ db.staff, t.user_id < db.nextId)

instance (db : DB) : Decidable db.Fresh := by
  unfold DB.Fresh; infer_instance

/-- `SELECT role FROM public.user_roles WHERE user_id = _user_id`. -/
def rolesOf (db : DB) (uid : Nat) : List Role :=
  (db.userRoles.filter (fun r => r.user_id == uid)).map (fun r => r.role)

/-- Leftmost element of minimal precedence; models `ORDER BY CASE ... END LIMIT 1`. -/
def minByPrecedence : List Role → Option Role
  | [] => none
  | r :: rs =>
    match minByPrecedence rs with
    | none => some r
    | some b => if r.precedence ≤ b.precedence then some r else some b

/-- The SQL function `public.get_current_user_role()` after the `user_roles`
migration: the caller's role of highest privilege (`admin` before `staff`
before `student`), or NULL when the caller holds no role. -/
def get_current_user_role (db : DB) (uid : Nat) : Option Role :=
  minByPrecedence (rolesOf db uid)

/-- The SQL function `public.has_role(_user_id, _role)`. -/
def has_role (db : DB) (uid : Nat) (r : Role) : Bool :=
  db.userRoles.any (fun x => x.user_id == uid && x.role == r)

/-- `get_current_user_role() IN (...)`; SQL `NULL IN (...)` is not true,
so an empty role set satisfies no role test. -/
def roleIn (db : DB) (uid : Nat) (rs : List Role) : Bool :=
  match get_current_user_role db uid with
  | some r => rs.contains r
  | none => false

/-! ### Row-level security policies (from the migrations) -/

/-- A row of `public.attendance_records`, restricted to the columns the
policies consult. -/
structure AttendanceRow where
  id : Nat
  qr_code_id : Nat
  student_id : Nat
deriving DecidableEq, Repr

/-- Policy "Students can view their own attendance":
`student_id IN (SELECT id FROM students WHERE user_id = auth.uid())`. -/
def studentsViewOwnAttendance (db : DB) (uid : Nat) (row : AttendanceRow) : Bool :=
  db.students.any (fun s => s.id == row.student_id && s.user_id == uid)

/-- Policy "Staff can manage attendance":
`get_current_user_role() IN ('admin', 'staff')`. -/
def staffManageAttendance (db : DB) (uid : Nat) : Bool :=
  roleIn db uid [Role.admin, Role.staff]

/-- Permissive-policy combination: a request is allowed when at least one
applicable policy predicate evaluates true. -/
def anyPolicy (ps : List Bool) : Bool :=
  ps.any id

/-- The OR-combination of the declared `SELECT` policies on
`attendance_records`. -/
def attendanceSelectAllowed (db : DB) (uid : Nat) (row : AttendanceRow) : Bool :=
  anyPolicy [studentsViewOwnAttendance db uid row, staffManageAttendance db uid]

/-- A row of `public.qr_codes`, restricted to the columns the policies
consult.  After the permanent-QR migration `expires_at` is nullable and
`qr_type` is constrained to `'course'` or `'general'`. -/
structure QrRow where
  id : Nat
  qr_type : String
  expires_at : Option Int
deriving DecidableEq, Repr

/-- `expires_at > now()`; a NULL `expires_at` makes the comparison not true. -/
def expiresAfter (row : QrRow) (now : Int) : Bool :=
  match row.expires_at with
  | some t => now < t
  | none => false

/-- Policy "Students can view active QR codes" (final version, after the
permanent-QR migration):
`qr_type = 'general' OR (qr_type = 'course' AND expires_at > now())`. -/
def studentsViewActiveQr (now : Int) (row : QrRow) : Bool :=
  row.qr_type == "general" || (row.qr_type == "course" && expiresAfter row now)

/-- Policy "Everyone can view QR codes" from the consolidated schema
migration: `USING (true)`. -/
def everyoneViewQr : Bool :=
  true

/-- Policy "Staff and admins can manage QR codes" / "Staff can manage QR codes". -/
def staffManageQr (db : DB) (uid : Nat) : Bool :=
  roleIn db uid [Role.admin, Role.staff]

/-- The OR-combination of the `SELECT`-applicable policies declared on
`qr_codes` across the repository's migrations. -/
def qrSelectAllowed (db : DB) (uid : Nat) (row : QrRow) (now : Int) : Bool :=
  anyPolicy [everyoneViewQr, staffManageQr db uid, studentsViewActiveQr now row]

/-- Policy "Admin can delete students": `get_current_user_role() = 'admin'`. -/
def adminDeleteStudents (db : DB) (uid : Nat) : Bool :=
  roleIn db uid [Role.admin]

/-! ### The `admin-create-user` edge function (provisioning) -/

/-- The `studentData` field of the request body. -/
structure StudentData where
  studentId : String
  course : String
  semester : Nat
  emergencyContact : Option String
deriving DecidableEq, Repr

/-- The `staffData` field of the request body. -/
structure StaffData where
  employeeId : String
  department : String
  position : String
deriving DecidableEq, Repr

/-- The JSON body read by the `admin-create-user` handler.  The `role`
field is an arbitrary string; the handler itself never validates it. -/
structure CreateRequest where
  email : String
  password : String
  fullName : String
  phone : Option String
  address : Option String
  role : String
  profilePictureUrl : Option String
  studentData : Option StudentData
  staffData : Option StaffData
deriving DecidableEq, Repr

/-- JavaScript `x || null` on an optional string: an absent or empty
string becomes null. -/
def orNull : Option String → Option String
  | some "" => none
  | some s => some s
  | none => none

/-- Injected collaborator failures.  `none` means the corresponding call
succeeds (beyond the constraint checks computed from the state); `some e`
makes it fail with message `e`. -/
structure Faults where
  createUserError : Option String
  profileInsertError : Option String
  roleInsertError : Option String
  studentInsertError : Option String
  staffInsertError : Option String
  deleteUserError : Option String
deriving DecidableEq, Repr

/-- No injected failures. -/
def Faults.none' : Faults :=
  ⟨none, none, none, none, none, none⟩

/-- Mutation calls a workflow run attempts, in order. -/
inductive Action where
  | createUser (email : String)
  | insertProfile (uid : Nat)
  | insertRole (uid : Nat) (role : String)
  | insertStudent (uid : Nat)
  | insertStaff (uid : Nat)
  | deleteAuthUser (uid : Nat)
  | deleteStudentRecord (rid : Nat)
  | deleteStaffRecord (rid : Nat)
  | deleteUserRoles (uid : Nat)
  | deleteProfile (uid : Nat)
  | uploadPicture (uid : Nat)
  | updateProfilePicture (uid : Nat)
deriving DecidableEq, Repr

/-- Response body of the `admin-create-user` handler. -/
inductive Body where
  | success (userId : Nat) (message : String)
  | error (message : String)
deriving DecidableEq, Repr

/-- HTTP response of the `admin-create-user` handler. -/
structure Response where
  status : Nat
  body : Body
deriving DecidableEq, Repr

/-- Outcome of one provisioning run: response, final state, mutation trace. -/
structure RunResult where
  resp : Response
  db : DB
  trace : List Action
deriving DecidableEq, Repr

/-- The message the identity provider reports when the email already has
an account. -/
def conflictMessage : String :=
  "A user with this email address has already been registered"

/-- Error message for a value outside the `user_role` enum. -/
def enumRoleMessage : String :=
  "invalid input value for enum user_role"

/-- Error message for a duplicate `(user_id, role)` pair. -/
def uniqueUserRoleMessage : String :=
  "duplicate key value violates unique constraint user_roles_user_id_role_key"

/-- Error message for a duplicate `profiles` primary key. -/
def pkProfilesMessage : String :=
  "duplicate key value violates unique constraint profiles_pkey"

/-- Error message for a `profiles.id` value with no `auth.users` row. -/
def fkProfilesMessage : String :=
  "insert or update on table profiles violates foreign key constraint"

/-- Error message for a `user_roles.user_id` value with no `auth.users` row. -/
def fkUserRolesMessage : String :=
  "insert or update on table user_roles violates foreign key constraint"

/-- Error message for a duplicate `students.student_id`. -/
def uniqueStudentIdMessage : String :=
  "duplicate key value violates unique constraint students_student_id_key"

/-- Error message for a `students.user_id` value with no `profiles` row. -/
def fkStudentsMessage : String :=
  "insert or update on table students violates foreign key constraint"

/-- Error message for a duplicate `staff.employee_id`. -/
def uniqueEmployeeIdMessage : String :=
  "duplicate key value violates unique constraint staff_employee_id_key"

/-- Error message for a `staff.user_id` value with no `profiles` row. -/
def fkStaffMessage : String :=
  "insert or update on table staff violates foreign key constraint"

/-- `supabase.auth.admin.createUser({email, ...})`: fails when the email
already has an account, otherwise issues a fresh account id. -/
def createUser (db : DB) (f : Faults) (email : String) : Except String (Nat × DB) :=
  if db.authUsers.any (fun u => u.email == email) then
    .error conflictMessage
  else
    match f.createUserError with
    | some e => .error e
    | none =>
      .ok (db.nextId,
        { db with
          authUsers := ⟨db.nextId, email⟩ :: db.authUsers
          nextId := db.nextId + 1 })

/-- `supabase.from('profiles').insert(...)` with the primary-key and
foreign-key constraints of the `profiles` DDL. -/
def insertProfile (db : DB) (f : Faults) (row : ProfileRow) : Except String DB :=
  if db.profiles.any (fun p => p.id == row.id) then
    .error pkProfilesMessage
  else if !(db.authUsers.any (fun u => u.id == row.id)) then
    .error fkProfilesMessage
  else
    match f.profileInsertError with
    | some e => .error e
    | none => .ok { db with profiles := row :: db.profiles }

/-- Parse a role string against the `user_role` enum. -/
def parseRole : String → Option Role
  | "admin" => some Role.admin
  | "staff" => some Role.staff
  | "student" => some Role.student
  | _ => none

/-- `supabase.from('user_roles').insert({user_id, role, created_by})` with
the enum, uniqueness and foreign-key constraints of the `user_roles` DDL. -/
def insertUserRole (db : DB) (f : Faults) (uid : Nat) (roleStr : String)
    (grantor : Nat) : Except String DB :=
  match parseRole roleStr with
  | none => .error enumRoleMessage
  | some r =>
    if db.userRoles.any (fun x => x.user_id == uid && x.role == r) then
      .error uniqueUserRoleMessage
    else if !(db.authUsers.any (fun u => u.id == uid)) then
      .error fkUserRolesMessage
    else
      match f.roleInsertError with
      | some e => .error e
      | none => .ok { db with userRoles := ⟨uid, r, some grantor⟩ :: db.userRoles }

/-- `supabase.from('students').insert(...)` with the uniqueness and
foreign-key constraints of the `students` DDL. -/
def insertStudent (db : DB) (f : Faults) (uid : Nat) (sd : StudentData)
    (registrar : Nat) : Except String DB :=
  if db.students.any (fun s => s.student_id == sd.studentId) then
    .error uniqueStudentIdMessage
  else if !(db.profiles.any (fun p => p.id == uid)) then
    .error fkStudentsMessage
  else
    match f.studentInsertError with
    | some e => .error e
    | none =>
      .ok { db with
        students :=
          ⟨db.nextId, uid, sd.studentId, sd.course, sd.semester,
            orNull sd.emergencyContact, some registrar⟩ :: db.students
        nextId := db.nextId + 1 }

/-- `supabase.from('staff').insert(...)` with the uniqueness and
foreign-key constraints of the `staff` DDL. -/
def insertStaff (db : DB) (f : Faults) (uid : Nat) (st : StaffData) :
    Except String DB :=
  if db.staff.any (fun s => s.employee_id == st.employeeId) then
    .error uniqueEmployeeIdMessage
  else if !(db.profiles.any (fun p => p.id == uid)) then
    .error fkStaffMessage
  else
    match f.staffInsertError with
    | some e => .error e
    | none =>
      .ok { db with
        staff := ⟨db.nextId, uid, st.employeeId, st.department, st.position⟩ :: db.staff
        nextId := db.nextId + 1 }

/-- Deleting the account removes the `auth.users` row, and the
`ON DELETE CASCADE` edges declared in the migrations remove the `profiles`
row keyed by it, the `user_roles` rows referencing it and, through
`profiles`, the `students` and `staff` rows referencing the profile. -/
def cascadeDelete (db : DB) (uid : Nat) : DB :=
  { db with
    authUsers := db.authUsers.filter (fun u => u.id != uid)
    profiles := db.profiles.filter (fun p => p.id != uid)
    userRoles := db.userRoles.filter (fun r => r.user_id != uid)
    students := db.students.filter (fun s => s.user_id != uid)
    staff := db.staff.filter (fun t => t.user_id != uid) }

/-- `supabase.auth.admin.deleteUser(uid)`: on failure the state is
untouched; on success the account and everything cascading from it is gone. -/
def deleteAuthUser (db : DB) (f : Faults) (uid : Nat) : Option String × DB :=
  match f.deleteUserError with
  | some e => (some e, db)
  | none => (none, cascadeDelete db uid)

/-- `roles?.some(r => r.role === 'admin')` on the rows selected for the
requesting user. -/
def isAdmin (db : DB) (uid : Nat) : Bool :=
  db.userRoles.any (fun r => r.user_id == uid && r.role == Role.admin)

/-- The `admin-create-user` handler.  `caller` is the account the bearer
token resolves to (`none` models a failed `getUser`).  Each rollback
branch deletes the created account and returns the step's own error with
status 400; the result of the compensating delete is not inspected. -/
def adminCreateUser (db : DB) (f : Faults) (caller : Option Nat)
    (req : CreateRequest) : RunResult :=
  match caller with
  | none => ⟨⟨401, .error "Unauthorized"⟩, db, []⟩
  | some callerId =>
    if !(isAdmin db callerId) then
      ⟨⟨403, .error "Admin access required"⟩, db, []⟩
    else
      match createUser db f req.email with
      | .error e => ⟨⟨400, .error e⟩, db, [.createUser req.email]⟩
      | .ok (uid, db1) =>
        match insertProfile db1 f
            ⟨uid, req.email, req.fullName, orNull req.phone, orNull req.address,
              orNull req.profilePictureUrl⟩ with
        | .error e =>
          ⟨⟨400, .error e⟩, (deleteAuthUser db1 f uid).2,
            [.createUser req.email, .insertProfile uid, .deleteAuthUser uid]⟩
        | .ok db2 =>
          match insertUserRole db2 f uid req.role callerId with
          | .error e =>
            ⟨⟨400, .error e⟩, (deleteAuthUser db2 f uid).2,
              [.createUser req.email, .insertProfile uid, .insertRole uid req.role,
                .deleteAuthUser uid]⟩
          | .ok db3 =>
            if req.role == "student" then
              match req.studentData with
              | some sd =>
                match insertStudent db3 f uid sd callerId with
                | .error e =>
                  ⟨⟨400, .error e⟩, (deleteAuthUser db3 f uid).2,
                    [.createUser req.email, .insertProfile uid,
                      .insertRole uid req.role, .insertStudent uid,
                      .deleteAuthUser uid]⟩
                | .ok db4 =>
                  ⟨⟨200, .success uid ("User " ++ req.fullName ++ " created successfully")⟩,
                    db4,
                    [.createUser req.email, .insertProfile uid,
                      .insertRole uid req.role, .insertStudent uid]⟩
              | none =>
                ⟨⟨200, .success uid ("User " ++ req.fullName ++ " created successfully")⟩,
                  db3,
                  [.createUser req.email, .insertProfile uid, .insertRole uid req.role]⟩
            else if req.role == "staff" then
              match req.staffData with
              | some st =>
                match insertStaff db3 f uid st with
                | .error e =>
                  ⟨⟨400, .error e⟩, (deleteAuthUser db3 f uid).2,
                    [.createUser req.email, .insertProfile uid,
                      .insertRole uid req.role, .insertStaff uid,
                      .deleteAuthUser uid]⟩
                | .ok db4 =>
                  ⟨⟨200, .success uid ("User " ++ req.fullName ++ " created successfully")⟩,
                    db4,
                    [.createUser req.email, .insertProfile uid,
                      .insertRole uid req.role, .insertStaff uid]⟩
              | none =>
                ⟨⟨200, .success uid ("User " ++ req.fullName ++ " created successfully")⟩,
                  db3,
                  [.createUser req.email, .insertProfile uid, .insertRole uid req.role]⟩
            else
              ⟨⟨200, .success uid ("User " ++ req.fullName ++ " created successfully")⟩,
                db3,
                [.createUser req.email, .insertProfile uid, .insertRole uid req.role]⟩

/-! ### The `admin-delete-user` edge function (de-provisioning) -/

/-- The JSON body read by the `admin-delete-user` handler; `userId` is the
`students.id` / `staff.id` record id (`none` models a missing field). -/
structure DeleteRequest where
  userId : Option Nat
  userType : String
deriving DecidableEq, Repr

/-- Injected failures for the cleanup steps.  The handler never inspects
the results of the row deletes, so a failing delete merely leaves the rows
in place; only the final account delete's error is observed. -/
structure DeleteFaults where
  studentDeleteFails : Bool
  staffDeleteFails : Bool
  rolesDeleteFails : Bool
  profileDeleteFails : Bool
  deleteUserError : Option String
deriving DecidableEq, Repr

/-- No injected failures for the delete handler. -/
def DeleteFaults.none' : DeleteFaults :=
  ⟨false, false, false, false, none⟩

/-- Response body of the `admin-delete-user` handler. -/
inductive DBody where
  | ok (message : String)
  | err (message : String)
deriving DecidableEq, Repr

/-- Outcome of one de-provisioning run. -/
structure DeleteResult where
  status : Nat
  body : DBody
  db : DB
  trace : List Action
deriving DecidableEq, Repr

/-- `supabase.from('students').delete().eq('id', userId)`; the handler
ignores the result, so a failure leaves the row. -/
def deleteStudentRow (db : DB) (fails : Bool) (rid : Nat) : DB :=
  if fails then db
  else { db with students := db.students.filter (fun s => s.id != rid) }

/-- `supabase.from('staff').delete().eq('id', userId)`. -/
def deleteStaffRow (db : DB) (fails : Bool) (rid : Nat) : DB :=
  if fails then db
  else { db with staff := db.staff.filter (fun s => s.id != rid) }

/-- `supabase.from('user_roles').delete().eq('user_id', targetUserId)`. -/
def deleteRoleRows (db : DB) (fails : Bool) (uid : Nat) : DB :=
  if fails then db
  else { db with userRoles := db.userRoles.filter (fun r => r.user_id != uid) }

/-- `supabase.from('profiles').delete().eq('id', targetUserId)`. -/
def deleteProfileRow (db : DB) (fails : Bool) (uid : Nat) : DB :=
  if fails then db
  else { db with profiles := db.profiles.filter (fun p => p.id != uid) }

/-- The `admin-delete-user` handler: resolve the record to the owning
account, delete the role-specific record, the role rows, the profile, and
finally the account; every step before the account delete is attempted
regardless of earlier failures, and only the account delete's error is
reported. -/
def adminDeleteUser (db : DB) (f : DeleteFaults) (caller : Option Nat)
    (req : DeleteRequest) : DeleteResult :=
  match caller with
  | none => ⟨401, .err "Unauthorized", db, []⟩
  | some callerId =>
    if !(isAdmin db callerId) then
      ⟨403, .err "Admin access required", db, []⟩
    else
      match req.userId with
      | none => ⟨400, .err "User ID is required", db, []⟩
      | some rid =>
        let step1 : Nat × DB × List Action :=
          if req.userType == "student" then
            match db.students.find? (fun s => s.id == rid) with
            | some s =>
              (s.user_id, deleteStudentRow db f.studentDeleteFails rid,
                [Action.deleteStudentRecord rid])
            | none => (rid, db, [])
          else if req.userType == "staff" then
            match db.staff.find? (fun s => s.id == rid) with
            | some s =>
              (s.user_id, deleteStaffRow db f.staffDeleteFails rid,
                [Action.deleteStaffRecord rid])
            | none => (rid, db, [])
          else (rid, db, [])
        match step1 with
        | (target, db1, t1) =>
          let db2 := deleteRoleRows db1 f.rolesDeleteFails target
          let db3 := deleteProfileRow db2 f.profileDeleteFails target
          match f.deleteUserError with
          | some e =>
            ⟨400, .err e, db3,
              t1 ++ [.deleteUserRoles target, .deleteProfile target,
                .deleteAuthUser target]⟩
          | none =>
            ⟨200, .ok "User deleted successfully", cascadeDelete db3 target,
              t1 ++ [.deleteUserRoles target, .deleteProfile target,
                .deleteAuthUser target]⟩

/-! ### The client-side registration flow (`UserRegistration.handleSubmit`) -/

/-- The public URL the storage collaborator reports for the uploaded
picture, namespaced by the new account id. -/
def publicUrlFor (uid : Nat) : String :=
  "profile-pictures/" ++ toString uid

/-- `supabase.from('profiles').update({profile_picture_url}).eq('id', uid)`. -/
def updateProfilePicture (db : DB) (uid : Nat) (url : String) : DB :=
  { db with
    profiles := db.profiles.map (fun p =>
      if p.id == uid then { p with profile_picture_url := some url } else p) }

/-- Outcome of the client-side registration flow. -/
structure RegisterResult where
  ok : Bool
  userId : Option Nat
  db : DB
  trace : List Action
deriving DecidableEq, Repr

/-- `UserRegistration.handleSubmit`: invoke `admin-create-user` with
`profilePictureUrl: null`; on success, if a picture was chosen, upload it
and — only when the upload succeeded — patch the profile with the public
URL.  A failing upload is skipped over and the flow still reports success. -/
def registerUser (db : DB) (f : Faults) (caller : Option Nat)
    (req : CreateRequest) (hasPicture : Bool) (uploadFails : Bool) : RegisterResult :=
  let r := adminCreateUser db f caller { req with profilePictureUrl := none }
  match r.resp.body with
  | .error _ => ⟨false, none, r.db, r.trace⟩
  | .success uid _ =>
    if hasPicture then
      if uploadFails then
        ⟨true, some uid, r.db, r.trace ++ [.uploadPicture uid]⟩
      else
        ⟨true, some uid, updateProfilePicture r.db uid (publicUrlFor uid),
          r.trace ++ [.uploadPicture uid, .updateProfilePicture uid]⟩
    else ⟨true, some uid, r.db, r.trace⟩

/-! ### Concrete fixtures used by witnesses and counterexamples -/

/-- A database holding one admin account. -/
def dbAdmin : DB :=
  ⟨[⟨1, "admin@x.com"⟩],
    [⟨1, "admin@x.com", "Admin One", none, none, none⟩],
    [⟨1, Role.admin, none⟩], [], [], 2⟩

/-- A valid student-provisioning request. -/
def reqStudent : CreateRequest :=
  ⟨"s@x.com", "pw", "Stu Dent", none, none, "student", none,
    some ⟨"STU20250001", "CS", 1, none⟩, none⟩

/-- A request whose role lies outside the `user_role` enum. -/
def reqBanana : CreateRequest :=
  ⟨"b@x.com", "pw", "Bob", none, none, "banana", none, none, none⟩

/-- A student request carrying no `studentData` payload. -/
def reqNoStudentData : CreateRequest :=
  ⟨"n@x.com", "pw", "No Data", none, none, "student", none, none, none⟩

/-- A request reusing the admin's email. -/
def reqDupEmail : CreateRequest :=
  ⟨"admin@x.com", "pw", "Dup", none, none, "student", none, none, none⟩

/-- Faults making the profile insert and the compensating delete both fail. -/
def faultsC2 : Faults :=
  ⟨none, some "profile insert failed", none, none, none, some "account delete failed"⟩

/-- An account holding the roles student and admin. -/
def dbStudentAdmin : DB :=
  ⟨[⟨1, "u@x.com"⟩], [], [⟨1, Role.student, none⟩, ⟨1, Role.admin, none⟩], [], [], 2⟩

/-- An account holding the roles staff and student. -/
def dbStaffStudent : DB :=
  ⟨[⟨1, "u@x.com"⟩], [], [⟨1, Role.staff, none⟩, ⟨1, Role.student, none⟩], [], [], 2⟩

/-- An account holding no role. -/
def dbNoRoles : DB :=
  ⟨[⟨1, "u@x.com"⟩], [], [], [], [], 2⟩

/-- A database with an admin, a student user (account 2, record 3) and its
student record. -/
def dbWithStudent : DB :=
  ⟨[⟨1, "admin@x.com"⟩, ⟨2, "s@x.com"⟩],
    [⟨1, "admin@x.com", "Admin One", none, none, none⟩,
      ⟨2, "s@x.com", "Stu Dent", none, none, none⟩],
    [⟨1, Role.admin, none⟩, ⟨2, Role.student, some 1⟩],
    [⟨3, 2, "STU20250001", "CS", 1, none, some 1⟩], [], 4⟩

/-- An attendance row owned by the student record of `dbWithStudent`. -/
def rowOwnAttendance : AttendanceRow :=
  ⟨10, 7, 3⟩

/-- A database holding a single student-role account. -/
def dbQr : DB :=
  ⟨[⟨1, "s@x.com"⟩], [], [⟨1, Role.student, none⟩], [], [], 2⟩

/-- A non-permanent (course) QR code whose expiry lies in the past for
request time 10. -/
def rowQrExpired : QrRow :=
  ⟨7, "course", some 5⟩

/-- A deletion request for the student record of `dbWithStudent`. -/
def reqDelStudent : DeleteRequest :=
  ⟨some 3, "student"⟩

/-- Delete faults making every ignored row delete fail while the account
delete succeeds. -/
def faultsDelAllRowFail : DeleteFaults :=
  ⟨true, true, true, true, none⟩

/-! ### Helper lemmas -/

theorem filter_auth_fresh (db : DB) (h : db.Fresh) :
    db.authUsers.filter (fun u => u.id != db.nextId) = db.authUsers := by
  refine List.filter_eq_self.mpr fun a ha => ?_
  have := h.1 a ha
  simp only [bne_iff_ne, ne_eq]
  omega

theorem filter_profiles_fresh (db : DB) (h : db.Fresh) :
    db.profiles.filter (fun p => p.id != db.nextId) = db.profiles := by
  refine List.filter_eq_self.mpr fun a ha => ?_
  have := h.2.1 a ha
  simp only [bne_iff_ne, ne_eq]
  omega

theorem filter_roles_fresh (db : DB) (h : db.Fresh) :
    db.userRoles.filter (fun r => r.user_id != db.nextId) = db.userRoles := by
  refine List.filter_eq_self.mpr fun a ha => ?_
  have := h.2.2.1 a ha
  simp only [bne_iff_ne, ne_eq]
  omega

theorem filter_students_fresh (db : DB) (h : db.Fresh) :
    db.students.filter (fun s => s.user_id != db.nextId) = db.students := by
  refine List.filter_eq_self.mpr fun a ha => ?_
  have := h.2.2.2.1 a ha
  simp only [bne_iff_ne, ne_eq]
  omega

theorem filter_staff_fresh (db : DB) (h : db.Fresh) :
    db.staff.filter (fun t => t.user_id != db.nextId) = db.staff := by
  refine List.filter_eq_self.mpr fun a ha => ?_
  have := h.2.2.2.2 a ha
  simp only [bne_iff_ne, ne_eq]
  omega

theorem profiles_pk_free (db : DB) (h : db.Fresh) :
    db.profiles.any (fun p => p.id == db.nextId) = false := by
  rw [List.any_eq_false]
  intro p hp
  have := h.2.1 p hp
  simp only [beq_iff_eq]
  omega

theorem userRoles_pair_free (db : DB) (h : db.Fresh) (r : Role) :
    db.userRoles.any (fun x => x.user_id == db.nextId && x.role == r) = false := by
  rw [List.any_eq_false]
  intro x hx
  have := h.2.2.1 x hx
  simp only [Bool.and_eq_true, beq_iff_eq, not_and]
  intro hxe
  omega

theorem minByPrecedence_eq_none {l : List Role} :
    minByPrecedence l = none ↔ l = [] := by
  cases l with
  | nil => simp [minByPrecedence]
  | cons r rs =>
    simp only [minByPrecedence]
    constructor
    · intro h
      exfalso
      cases hm : minByPrecedence rs with
      | none => simp [hm] at h
      | some b =>
        simp only [hm] at h
        by_cases hle : r.precedence ≤ b.precedence
        · rw [if_pos hle] at h; exact Option.noConfusion h
        · rw [if_neg hle] at h; exact Option.noConfusion h
    · intro h; exact List.noConfusion h

theorem minByPrecedence_mem : ∀ (l : List Role) (r : Role),
    minByPrecedence l = some r → r ∈ l
  | [], r, h => by simp [minByPrecedence] at h
  | a :: rs, r, h => by
    simp only [minByPrecedence] at h
    cases hm : minByPrecedence rs with
    | none =>
      simp only [hm, Option.some.injEq] at h
      subst h
      exact List.mem_cons_self a rs
    | some b =>
      simp only [hm] at h
      by_cases hle : a.precedence ≤ b.precedence
      · rw [if_pos hle] at h
        injection h with h'
        subst h'
        exact List.mem_cons_self a rs
      · rw [if_neg hle] at h
        injection h with h'
        subst h'
        exact List.mem_cons_of_mem a (minByPrecedence_mem rs b hm)

theorem minByPrecedence_min : ∀ (l : List Role) (r : Role),
    minByPrecedence l = some r → ∀ q ∈ l, r.precedence ≤ q.precedence
  | [], r, h => by simp [minByPrecedence] at h
  | a :: rs, r, h => by
    simp only [minByPrecedence] at h
    cases hm : minByPrecedence rs with
    | none =>
      have hrs : rs = [] := minByPrecedence_eq_none.mp hm
      simp only [hm, Option.some.injEq] at h
      subst h
      subst hrs
      intro q hq
      rcases List.mem_cons.mp hq with rfl | hq'
      · exact le_refl _
      · exact absurd hq' (List.not_mem_nil q)
    | some b =>
      have hb := minByPrecedence_min rs b hm
      simp only [hm] at h
      by_cases hle : a.precedence ≤ b.precedence
      · rw [if_pos hle] at h
        injection h with h'
        subst h'
        intro q hq
        rcases List.mem_cons.mp hq with rfl | hq'
        · exact le_refl _
        · exact le_trans hle (hb q hq')
      · rw [if_neg hle] at h
        injection h with h'
        subst h'
        intro q hq
        rcases List.mem_cons.mp hq with rfl | hq'
        · omega
        · exact hb q hq'

theorem insertProfile_ok_shape {db : DB} {f : Faults} {row : ProfileRow}
    {db' : DB} (h : insertProfile db f row = .ok db') :
    db' = { db with profiles := row :: db.profiles } := by
  unfold insertProfile at h
  split at h
  · exact Except.noConfusion h
  · split at h
    · exact Except.noConfusion h
    · cases hf : f.profileInsertError with
      | some e =>
        simp only [hf] at h
        exact Except.noConfusion h
      | none =>
        simp only [hf, Except.ok.injEq] at h
        exact h.symm

theorem insertUserRole_ok_shape {db : DB} {f : Faults} {uid : Nat}
    {roleStr : String} {g : Nat} {db' : DB}
    (h : insertUserRole db f uid roleStr g = .ok db') :
    ∃ r, parseRole roleStr = some r ∧
      db' = { db with userRoles := ⟨uid, r, some g⟩ :: db.userRoles } := by
  unfold insertUserRole at h
  cases hpr : parseRole roleStr with
  | none =>
    simp only [hpr] at h
    exact Except.noConfusion h
  | some r =>
    simp only [hpr] at h
    split at h
    · exact Except.noConfusion h
    · split at h
      · exact Except.noConfusion h
      · cases hf : f.roleInsertError with
        | some e =>
          simp only [hf] at h
          exact Except.noConfusion h
        | none =>
          simp only [hf, Except.ok.injEq] at h
          exact ⟨r, rfl, h.symm⟩

theorem cascade_db1 (db : DB) (hfresh : db.Fresh) (email : String) :
    cascadeDelete
      { db with
        authUsers := ⟨db.nextId, email⟩ :: db.authUsers
        nextId := db.nextId + 1 } db.nextId =
      { db with nextId := db.nextId + 1 } := by
  simp [cascadeDelete, filter_auth_fresh db hfresh, filter_profiles_fresh db hfresh,
    filter_roles_fresh db hfresh, filter_students_fresh db hfresh,
    filter_staff_fresh db hfresh]

theorem cascade_db2 (db : DB) (hfresh : db.Fresh) (email : String)
    (prow : ProfileRow) (hprow : prow.id = db.nextId) :
    cascadeDelete
      { db with
        authUsers := ⟨db.nextId, email⟩ :: db.authUsers
        profiles := prow :: db.profiles
        nextId := db.nextId + 1 } db.nextId =
      { db with nextId := db.nextId + 1 } := by
  simp [cascadeDelete, hprow, filter_auth_fresh db hfresh,
    filter_profiles_fresh db hfresh, filter_roles_fresh db hfresh,
    filter_students_fresh db hfresh, filter_staff_fresh db hfresh]

theorem cascade_db3 (db : DB) (hfresh : db.Fresh) (email : String)
    (prow : ProfileRow) (hprow : prow.id = db.nextId)
    (rrow : UserRoleRow) (hrrow : rrow.user_id = db.nextId) :
    cascadeDelete
      { db with
        authUsers := ⟨db.nextId, email⟩ :: db.authUsers
        profiles := prow :: db.profiles
        userRoles := rrow :: db.userRoles
        nextId := db.nextId + 1 } db.nextId =
      { db with nextId := db.nextId + 1 } := by
  simp [cascadeDelete, hprow, hrrow, filter_auth_fresh db hfresh,
    filter_profiles_fresh db hfresh, filter_roles_fresh db hfresh,
    filter_students_fresh db hfresh, filter_staff_fresh db hfresh]

/-! ### Claims -/

/-- Claim C4: provisioning with an email that already maps to an account
fails with the provider's conflict at step 1, attempts no further
mutation, and leaves the whole database state unchanged. -/
theorem provision_duplicate_email_conflict (db : DB) (f : Faults) (c : Nat)
    (req : CreateRequest) (hadmin : isAdmin db c = true)
    (hdup : db.authUsers.any (fun u => u.email == req.email) = true) :
    adminCreateUser db f (some c) req =
      ⟨⟨400, .error conflictMessage⟩, db, [.createUser req.email]⟩ := by
  simp [adminCreateUser, hadmin, createUser, hdup]

/-- Witness for C4 at a concrete database and request. -/
theorem provision_duplicate_email_conflict_witness :
    isAdmin dbAdmin 1 = true ∧
    dbAdmin.authUsers.any (fun u => u.email == reqDupEmail.email) = true ∧
    adminCreateUser dbAdmin Faults.none' (some 1) reqDupEmail =
      ⟨⟨400, .error conflictMessage⟩, dbAdmin, [.createUser reqDupEmail.email]⟩ :=
  ⟨by decide, by decide,
    provision_duplicate_email_conflict dbAdmin Faults.none' 1 reqDupEmail
      (by decide) (by decide)⟩

/-- Claim C5: the effective role is the held role of highest privilege
under admin before staff before student; the listed concrete role sets
resolve as the claim states, and with no held role every role-requiring
policy predicate evaluates false. -/
theorem effective_role_precedence :
    (∀ (db : DB) (uid : Nat) (r : Role), get_current_user_role db uid = some r →
      r ∈ rolesOf db uid ∧ ∀ q ∈ rolesOf db uid, r.precedence ≤ q.precedence) ∧
    (∀ (db : DB) (uid : Nat),
      get_current_user_role db uid = none ↔ rolesOf db uid = []) ∧
    get_current_user_role dbStudentAdmin 1 = some Role.admin ∧
    get_current_user_role dbStaffStudent 1 = some Role.staff ∧
    get_current_user_role dbNoRoles 1 = none ∧
    (∀ (db : DB) (uid : Nat), get_current_user_role db uid = none →
      staffManageAttendance db uid = false ∧ staffManageQr db uid = false ∧
      adminDeleteStudents db uid = false) := by
  refine ⟨?_, ?_, by decide, by decide, by decide, ?_⟩
  · intro db uid r h
    exact ⟨minByPrecedence_mem _ r h, minByPrecedence_min _ r h⟩
  · intro db uid
    exact minByPrecedence_eq_none
  · intro db uid h
    simp [staffManageAttendance, staffManageQr, adminDeleteStudents, roleIn, h]

/-- Witness for C5: the minimality part applied to the student-and-admin
account. -/
theorem effective_role_precedence_witness :
    Role.admin ∈ rolesOf dbStudentAdmin 1 ∧
    ∀ q ∈ rolesOf dbStudentAdmin 1, Role.admin.precedence ≤ q.precedence :=
  effective_role_precedence.1 dbStudentAdmin 1 Role.admin (by decide)

/-- Claim C6: access to `attendance_records` rows is the OR of the
declared policies; a caller of effective role student may select a row
exactly when the row's student reference resolves to the caller's own
student record, and a staff or admin caller is allowed unconditionally. -/
theorem attendance_authorization_or (db : DB) (uid : Nat) (row : AttendanceRow) :
    (attendanceSelectAllowed db uid row = true ↔
      (studentsViewOwnAttendance db uid row = true ∨
        staffManageAttendance db uid = true)) ∧
    (get_current_user_role db uid = some Role.student →
      (attendanceSelectAllowed db uid row = true ↔
        ∃ s ∈ db.students, s.id = row.student_id ∧ s.user_id = uid)) ∧
    ((get_current_user_role db uid = some Role.staff ∨
        get_current_user_role db uid = some Role.admin) →
      attendanceSelectAllowed db uid row = true) := by
  refine ⟨?_, ?_, ?_⟩
  · simp [attendanceSelectAllowed, anyPolicy]
  · intro h
    have hstaff : staffManageAttendance db uid = false := by
      simp [staffManageAttendance, roleIn, h]
    simp [attendanceSelectAllowed, anyPolicy, hstaff, studentsViewOwnAttendance,
      List.any_eq_true, Bool.and_eq_true, beq_iff_eq]
  · rintro (h | h) <;>
      simp [attendanceSelectAllowed, anyPolicy, staffManageAttendance, roleIn, h]

/-- Witness for C6: the student-caller characterization at a concrete
database, caller and row. -/
theorem attendance_authorization_or_witness :
    attendanceSelectAllowed dbWithStudent 2 rowOwnAttendance = true ↔
      ∃ s ∈ dbWithStudent.students,
        s.id = rowOwnAttendance.student_id ∧ s.user_id = 2 :=
  (attendance_authorization_or dbWithStudent 2 rowOwnAttendance).2.1 (by decide)

/-- Counterexample for C9: under the policies declared on `qr_codes` the
catch-all policy "Everyone can view QR codes" admits every row, so a
non-permanent (course) QR code whose expiry has passed is still visible
to a caller whose effective role is student. -/
theorem qr_expired_visible_counterexample :
    get_current_user_role dbQr 1 = some Role.student ∧
    rowQrExpired.qr_type = "course" ∧
    expiresAfter rowQrExpired 10 = false ∧
    studentsViewActiveQr 10 rowQrExpired = false ∧
    qrSelectAllowed dbQr 1 rowQrExpired 10 = true := by
  decide

/-- Claim C9 as amended: the policy "Students can view active QR codes"
taken alone gates visibility on the permanent (general) flag or a
not-yet-expired timestamp, but the table also carries the catch-all
policy "Everyone can view QR codes", under whose OR-combination every QR
row, expired ones included, is selectable by any caller. -/
theorem qr_visibility_amended (db : DB) (uid : Nat) (row : QrRow) (now : Int) :
    (studentsViewActiveQr now row = true ↔
      (row.qr_type = "general" ∨
        (row.qr_type = "course" ∧ expiresAfter row now = true))) ∧
    qrSelectAllowed db uid row now = true := by
  constructor
  · simp [studentsViewActiveQr]
  · simp [qrSelectAllowed, anyPolicy, everyoneViewQr]

/-- Witness for the amended C9 at a concrete caller and row. -/
theorem qr_visibility_amended_witness :
    qrSelectAllowed dbQr 1 rowQrExpired 10 = true :=
  (qr_visibility_amended dbQr 1 rowQrExpired 10).2

/-- Claim C7: for an admin caller deleting an existing student record, the
cleanup steps (role-specific record, role rows, profile, then the
account) are attempted in order regardless of any step's injected
failure, the handler never produces a combined partial-failure response,
and the run reports success exactly when the final account delete
succeeds, returning that delete's error otherwise. -/
theorem deprovision_best_effort (db : DB) (f : DeleteFaults) (c rid : Nat)
    (req : DeleteRequest) (srec : StudentRow)
    (hadmin : isAdmin db c = true)
    (hid : req.userId = some rid) (htype : req.userType = "student")
    (hfind : db.students.find? (fun s => s.id == rid) = some srec) :
    (adminDeleteUser db f (some c) req).trace =
      [.deleteStudentRecord rid, .deleteUserRoles srec.user_id,
        .deleteProfile srec.user_id, .deleteAuthUser srec.user_id] ∧
    ((adminDeleteUser db f (some c) req).status = 200 ↔
      f.deleteUserError = none) ∧
    (∀ e, f.deleteUserError = some e →
      (adminDeleteUser db f (some c) req).body = .err e) ∧
    (f.deleteUserError = none →
      (adminDeleteUser db f (some c) req).body = .ok "User deleted successfully") := by
  cases hdel : f.deleteUserError with
  | none =>
    refine ⟨?_, ?_, ?_, ?_⟩ <;>
      simp [adminDeleteUser, hadmin, hid, htype, hfind, hdel]
  | some e =>
    refine ⟨?_, ?_, ?_, ?_⟩ <;>
      simp [adminDeleteUser, hadmin, hid, htype, hfind, hdel]

/-- Witness for C7: all ignored row deletes fail, the account delete
succeeds, and every step is still attempted in order. -/
theorem deprovision_best_effort_witness :
    (adminDeleteUser dbWithStudent faultsDelAllRowFail (some 1) reqDelStudent).trace =
      [.deleteStudentRecord 3, .deleteUserRoles 2, .deleteProfile 2,
        .deleteAuthUser 2] :=
  (deprovision_best_effort dbWithStudent faultsDelAllRowFail 1 3 reqDelStudent
    ⟨3, 2, "STU20250001", "CS", 1, none, some 1⟩
    (by decide) (by decide) (by decide) (by decide)).1

/-- Claim C10: a student-role provisioning request with no `studentData`
payload skips the role-specific record step entirely: no student or staff
row is inserted, no error is returned, and the run reports success with
the new account id while the role assignment is still created. -/
theorem provision_skips_missing_student_record (db : DB) (f : Faults) (c : Nat)
    (req : CreateRequest)
    (hfresh : db.Fresh) (hadmin : isAdmin db c = true)
    (hemail : db.authUsers.any (fun u => u.email == req.email) = false)
    (hc : f.createUserError = none) (hp : f.profileInsertError = none)
    (hr : f.roleInsertError = none)
    (hrole : req.role = "student") (hsd : req.studentData = none) :
    adminCreateUser db f (some c) req =
      ⟨⟨200, .success db.nextId ("User " ++ req.fullName ++ " created successfully")⟩,
        { db with
          authUsers := ⟨db.nextId, req.email⟩ :: db.authUsers
          profiles := ⟨db.nextId, req.email, req.fullName, orNull req.phone,
            orNull req.address, orNull req.profilePictureUrl⟩ :: db.profiles
          userRoles := ⟨db.nextId, Role.student, some c⟩ :: db.userRoles
          nextId := db.nextId + 1 },
        [.createUser req.email, .insertProfile db.nextId,
          .insertRole db.nextId "student"]⟩ := by
  have hpk := profiles_pk_free db hfresh
  have hur := userRoles_pair_free db hfresh Role.student
  simp [adminCreateUser, hadmin, createUser, hemail, hc, insertProfile, hpk, hp,
    insertUserRole, hrole, parseRole, hur, hr, hsd]

/-- Witness for C10 at a concrete database and request. -/
theorem provision_skips_missing_student_record_witness :
    adminCreateUser dbAdmin Faults.none' (some 1) reqNoStudentData =
      ⟨⟨200, .success 2 ("User " ++ reqNoStudentData.fullName ++ " created successfully")⟩,
        { dbAdmin with
          authUsers := ⟨2, reqNoStudentData.email⟩ :: dbAdmin.authUsers
          profiles := ⟨2, reqNoStudentData.email, reqNoStudentData.fullName,
            orNull reqNoStudentData.phone, orNull reqNoStudentData.address,
            orNull reqNoStudentData.profilePictureUrl⟩ :: dbAdmin.profiles
          userRoles := ⟨2, Role.student, some 1⟩ :: dbAdmin.userRoles
          nextId := 3 },
        [.createUser reqNoStudentData.email, .insertProfile 2,
          .insertRole 2 "student"]⟩ :=
  provision_skips_missing_student_record dbAdmin Faults.none' 1 reqNoStudentData
    (by decide) (by decide) (by decide) rfl rfl rfl rfl rfl

/-- Claim C8: when account, profile, role and student-record creation all
succeed and only the profile-picture upload fails, the registration flow
still reports success with the new account id, and the profile's picture
field stays null rather than pointing at a broken URL. -/
theorem register_upload_failure_nonfatal (db : DB) (f : Faults) (c : Nat)
    (req : CreateRequest) (sd : StudentData)
    (hfresh : db.Fresh) (hadmin : isAdmin db c = true)
    (hemail : db.authUsers.any (fun u => u.email == req.email) = false)
    (hc : f.createUserError = none) (hp : f.profileInsertError = none)
    (hr : f.roleInsertError = none)
    (hrole : req.role = "student") (hsd : req.studentData = some sd)
    (hsid : db.students.any (fun s => s.student_id == sd.studentId) = false)
    (hs : f.studentInsertError = none) :
    registerUser db f (some c) req true true =
      ⟨true, some db.nextId,
        { db with
          authUsers := ⟨db.nextId, req.email⟩ :: db.authUsers
          profiles := ⟨db.nextId, req.email, req.fullName, orNull req.phone,
            orNull req.address, none⟩ :: db.profiles
          userRoles := ⟨db.nextId, Role.student, some c⟩ :: db.userRoles
          students := ⟨db.nextId + 1, db.nextId, sd.studentId, sd.course,
            sd.semester, orNull sd.emergencyContact, some c⟩ :: db.students
          nextId := db.nextId + 2 },
        [.createUser req.email, .insertProfile db.nextId,
          .insertRole db.nextId "student", .insertStudent db.nextId,
          .uploadPicture db.nextId]⟩ ∧
    (∀ p ∈ (registerUser db f (some c) req true true).db.profiles,
      p.id = db.nextId → p.profile_picture_url = none) := by
  have hpk := profiles_pk_free db hfresh
  have hur := userRoles_pair_free db hfresh Role.student
  have hmain : registerUser db f (some c) req true true =
      ⟨true, some db.nextId,
        { db with
          authUsers := ⟨db.nextId, req.email⟩ :: db.authUsers
          profiles := ⟨db.nextId, req.email, req.fullName, orNull req.phone,
            orNull req.address, none⟩ :: db.profiles
          userRoles := ⟨db.nextId, Role.student, some c⟩ :: db.userRoles
          students := ⟨db.nextId + 1, db.nextId, sd.studentId, sd.course,
            sd.semester, orNull sd.emergencyContact, some c⟩ :: db.students
          nextId := db.nextId + 2 },
        [.createUser req.email, .insertProfile db.nextId,
          .insertRole db.nextId "student", .insertStudent db.nextId,
          .uploadPicture db.nextId]⟩ := by
    simp [registerUser, adminCreateUser, hadmin, createUser, hemail, hc,
      insertProfile, hpk, hp, insertUserRole, hrole, parseRole, hur, hr, hsd,
      insertStudent, hsid, hs, orNull]
  refine ⟨hmain, ?_⟩
  intro p hp' hpid
  rw [hmain] at hp'
  rcases List.mem_cons.mp hp' with rfl | htail
  · rfl
  · have := hfresh.2.1 p htail
    omega

/-- Claim C1: when account creation succeeded but a later mutation step
fails (so the run answers 400) and the compensating account delete
succeeds, the final state carries zero residual rows in every table the
workflow could have written — all five tables are exactly as before the
run — and the created account no longer exists. -/
theorem provision_rollback_complete (db : DB) (f : Faults) (c : Nat)
    (req : CreateRequest)
    (hfresh : db.Fresh)
    (hemail : db.authUsers.any (fun u => u.email == req.email) = false)
    (hc : f.createUserError = none)
    (hdel : f.deleteUserError = none)
    (h400 : (adminCreateUser db f (some c) req).resp.status = 400) :
    (adminCreateUser db f (some c) req).db.authUsers = db.authUsers ∧
    (adminCreateUser db f (some c) req).db.profiles = db.profiles ∧
    (adminCreateUser db f (some c) req).db.userRoles = db.userRoles ∧
    (adminCreateUser db f (some c) req).db.students = db.students ∧
    (adminCreateUser db f (some c) req).db.staff = db.staff ∧
    ∀ u ∈ (adminCreateUser db f (some c) req).db.authUsers, u.id ≠ db.nextId := by
  have hmem : ∀ u ∈ db.authUsers, u.id ≠ db.nextId := by
    intro u hu
    have := hfresh.1 u hu
    omega
  by_cases hA : isAdmin db c = true
  case neg =>
    rw [Bool.not_eq_true] at hA
    simp [adminCreateUser, hA] at h400
  case pos =>
  have hcu : createUser db f req.email =
      .ok (db.nextId,
        { db with
          authUsers := ⟨db.nextId, req.email⟩ :: db.authUsers
          nextId := db.nextId + 1 }) := by
    simp [createUser, hemail, hc]
  simp only [adminCreateUser, hA, Bool.not_true, Bool.false_eq_true, if_false,
    hcu] at h400 ⊢
  cases hip : insertProfile
      { db with
        authUsers := ⟨db.nextId, req.email⟩ :: db.authUsers
        nextId := db.nextId + 1 } f
      ⟨db.nextId, req.email, req.fullName, orNull req.phone, orNull req.address,
        orNull req.profilePictureUrl⟩ with
  | error e =>
    simp only [hip, deleteAuthUser, hdel] at h400 ⊢
    rw [cascade_db1 db hfresh req.email]
    exact ⟨rfl, rfl, rfl, rfl, rfl, hmem⟩
  | ok db2 =>
    have hdb2 := insertProfile_ok_shape hip
    subst hdb2
    simp only [hip] at h400 ⊢
    cases hiur : insertUserRole
        { db with
          authUsers := ⟨db.nextId, req.email⟩ :: db.authUsers
          profiles := ⟨db.nextId, req.email, req.fullName, orNull req.phone,
            orNull req.address, orNull req.profilePictureUrl⟩ :: db.profiles
          nextId := db.nextId + 1 } f db.nextId req.role c with
    | error e =>
      simp only [hiur, deleteAuthUser, hdel] at h400 ⊢
      rw [cascade_db2 db hfresh req.email
        ⟨db.nextId, req.email, req.fullName, orNull req.phone, orNull req.address,
          orNull req.profilePictureUrl⟩ rfl]
      exact ⟨rfl, rfl, rfl, rfl, rfl, hmem⟩
    | ok db3 =>
      obtain ⟨r, hpr, hdb3⟩ := insertUserRole_ok_shape hiur
      subst hdb3
      simp only [hiur] at h400 ⊢
      cases hstu : req.role == "student" with
      | true =>
        simp only [hstu, if_true] at h400 ⊢
        cases hsd : req.studentData with
        | none =>
          simp [hsd] at h400
        | some sd =>
          simp only [hsd] at h400 ⊢
          cases his : insertStudent
              { db with
                authUsers := ⟨db.nextId, req.email⟩ :: db.authUsers
                profiles := ⟨db.nextId, req.email, req.fullName, orNull req.phone,
                  orNull req.address, orNull req.profilePictureUrl⟩ :: db.profiles
                userRoles := ⟨db.nextId, r, some c⟩ :: db.userRoles
                nextId := db.nextId + 1 } f db.nextId sd c with
          | error e =>
            simp only [his, deleteAuthUser, hdel] at h400 ⊢
            rw [cascade_db3 db hfresh req.email
              ⟨db.nextId, req.email, req.fullName, orNull req.phone,
                orNull req.address, orNull req.profilePictureUrl⟩ rfl
              ⟨db.nextId, r, some c⟩ rfl]
            exact ⟨rfl, rfl, rfl, rfl, rfl, hmem⟩
          | ok db4 =>
            simp [his] at h400
      | false =>
        simp only [hstu, Bool.false_eq_true, if_false] at h400 ⊢
        cases hsta : req.role == "staff" with
        | true =>
          simp only [hsta, if_true] at h400 ⊢
          cases hst : req.staffData with
          | none =>
            simp [hst] at h400
          | some st =>
            simp only [hst] at h400 ⊢
            cases his : insertStaff
                { db with
                  authUsers := ⟨db.nextId, req.email⟩ :: db.authUsers
                  profiles := ⟨db.nextId, req.email, req.fullName, orNull req.phone,
                    orNull req.address, orNull req.profilePictureUrl⟩ :: db.profiles
                  userRoles := ⟨db.nextId, r, some c⟩ :: db.userRoles
                  nextId := db.nextId + 1 } f db.nextId st with
            | error e =>
              simp only [his, deleteAuthUser, hdel] at h400 ⊢
              rw [cascade_db3 db hfresh req.email
                ⟨db.nextId, req.email, req.fullName, orNull req.phone,
                  orNull req.address, orNull req.profilePictureUrl⟩ rfl
                ⟨db.nextId, r, some c⟩ rfl]
              exact ⟨rfl, rfl, rfl, rfl, rfl, hmem⟩
            | ok db4 =>
              simp [his] at h400
        | false =>
          simp [hsta] at h400

/-- Witness for C1: the role insert is forced to fail, the compensating
delete succeeds, and the state is fully restored. -/
theorem provision_rollback_complete_witness :
    (adminCreateUser dbAdmin ⟨none, none, some "role insert failed", none, none, none⟩
      (some 1) reqStudent).db.authUsers = dbAdmin.authUsers ∧
    (adminCreateUser dbAdmin ⟨none, none, some "role insert failed", none, none, none⟩
      (some 1) reqStudent).db.profiles = dbAdmin.profiles ∧
    (adminCreateUser dbAdmin ⟨none, none, some "role insert failed", none, none, none⟩
      (some 1) reqStudent).db.userRoles = dbAdmin.userRoles ∧
    (adminCreateUser dbAdmin ⟨none, none, some "role insert failed", none, none, none⟩
      (some 1) reqStudent).db.students = dbAdmin.students ∧
    (adminCreateUser dbAdmin ⟨none, none, some "role insert failed", none, none, none⟩
      (some 1) reqStudent).db.staff = dbAdmin.staff ∧
    ∀ u ∈ (adminCreateUser dbAdmin ⟨none, none, some "role insert failed", none, none, none⟩
      (some 1) reqStudent).db.authUsers, u.id ≠ dbAdmin.nextId :=
  provision_rollback_complete dbAdmin
    ⟨none, none, some "role insert failed", none, none, none⟩ 1 reqStudent
    (by decide) (by decide) rfl rfl (by decide)

theorem createUser_fault_irrel (db : DB) (f : Faults) (d : Option String)
    (email : String) :
    createUser db { f with deleteUserError := d } email = createUser db f email :=
  rfl

theorem insertProfile_fault_irrel (db : DB) (f : Faults) (d : Option String)
    (row : ProfileRow) :
    insertProfile db { f with deleteUserError := d } row = insertProfile db f row :=
  rfl

theorem insertUserRole_fault_irrel (db : DB) (f : Faults) (d : Option String)
    (uid : Nat) (roleStr : String) (g : Nat) :
    insertUserRole db { f with deleteUserError := d } uid roleStr g =
      insertUserRole db f uid roleStr g :=
  rfl

theorem insertStudent_fault_irrel (db : DB) (f : Faults) (d : Option String)
    (uid : Nat) (sd : StudentData) (g : Nat) :
    insertStudent db { f with deleteUserError := d } uid sd g =
      insertStudent db f uid sd g :=
  rfl

theorem insertStaff_fault_irrel (db : DB) (f : Faults) (d : Option String)
    (uid : Nat) (st : StaffData) :
    insertStaff db { f with deleteUserError := d } uid st =
      insertStaff db f uid st :=
  rfl

/-- Counterexample for C2: with the profile insert and the compensating
account delete both failing, the handler's response is status 400 with
only the profile step's message; no combined error carrying the
compensation failure exists, and the orphaned account remains. -/
theorem compensation_failure_counterexample :
    faultsC2.profileInsertError = some "profile insert failed" ∧
    faultsC2.deleteUserError = some "account delete failed" ∧
    (adminCreateUser dbAdmin faultsC2 (some 1) reqStudent).resp =
      ⟨400, .error "profile insert failed"⟩ ∧
    (adminCreateUser dbAdmin faultsC2 (some 1) reqStudent).db.authUsers =
      [⟨2, "s@x.com"⟩, ⟨1, "admin@x.com"⟩] := by
  decide

/-- Claim C2 as amended: the outcome of the compensating account delete is
discarded — the handler's response is identical whatever the compensating
delete returns, so on compensation failure the caller sees only the
original step error and no combined partial-failure report. -/
theorem provision_compensation_error_discarded (db : DB) (f : Faults)
    (caller : Option Nat) (req : CreateRequest) (d : Option String) :
    (adminCreateUser db { f with deleteUserError := d } caller req).resp =
      (adminCreateUser db f caller req).resp := by
  cases caller with
  | none => rfl
  | some c =>
    by_cases hA : isAdmin db c = true
    case neg =>
      rw [Bool.not_eq_true] at hA
      simp [adminCreateUser, hA]
    case pos =>
    simp only [adminCreateUser, hA, Bool.not_true, Bool.false_eq_true, if_false,
      createUser_fault_irrel, insertProfile_fault_irrel, insertUserRole_fault_irrel,
      insertStudent_fault_irrel, insertStaff_fault_irrel]
    split
    · rfl
    next uid db1 =>
      split
      · rfl
      next db2 =>
        split
        · rfl
        next db3 =>
          split
          · split
            next sd => split <;> rfl
            next => rfl
          · split
            · split
              next st => split <;> rfl
              next => rfl
            · rfl

/-- Witness for the amended C2: the response with a failing compensating
delete equals the response with a succeeding one at a concrete run. -/
theorem provision_compensation_error_discarded_witness :
    (adminCreateUser dbAdmin
      { (⟨none, some "profile insert failed", none, none, none, none⟩ : Faults) with
        deleteUserError := some "account delete failed" } (some 1) reqStudent).resp =
      (adminCreateUser dbAdmin
        ⟨none, some "profile insert failed", none, none, none, none⟩
        (some 1) reqStudent).resp :=
  provision_compensation_error_discarded dbAdmin
    ⟨none, some "profile insert failed", none, none, none, none⟩
    (some 1) reqStudent (some "account delete failed")

/-- Counterexample for C3: a role value outside the enum is not rejected
before mutation — account creation and the profile insert both run before
the role-assignment step fails with the store's enum error. -/
theorem provision_invalid_role_counterexample :
    (adminCreateUser dbAdmin Faults.none' (some 1) reqBanana).resp =
      ⟨400, .error enumRoleMessage⟩ ∧
    (adminCreateUser dbAdmin Faults.none' (some 1) reqBanana).trace =
      [.createUser "b@x.com", .insertProfile 2, .insertRole 2 "banana",
        .deleteAuthUser 2] := by
  decide

/-- Claim C3 as amended: a caller without the admin role is rejected with
403 before any mutation, but a role outside the enum is rejected only at
the role-assignment step — after the account and profile mutations have
run — with the store's enum error and status 400, followed by
compensation. -/
theorem provision_validation_amended :
    (∀ (db : DB) (f : Faults) (c : Nat) (req : CreateRequest),
      isAdmin db c = false →
      adminCreateUser db f (some c) req =
        ⟨⟨403, .error "Admin access required"⟩, db, []⟩) ∧
    (∀ (db : DB) (f : Faults) (c : Nat) (req : CreateRequest),
      db.Fresh → isAdmin db c = true →
      db.authUsers.any (fun u => u.email == req.email) = false →
      f.createUserError = none → f.profileInsertError = none →
      parseRole req.role = none →
      (adminCreateUser db f (some c) req).resp = ⟨400, .error enumRoleMessage⟩ ∧
      (adminCreateUser db f (some c) req).trace =
        [.createUser req.email, .insertProfile db.nextId,
          .insertRole db.nextId req.role, .deleteAuthUser db.nextId]) := by
  constructor
  · intro db f c req h
    simp [adminCreateUser, h]
  · intro db f c req hfresh hadmin hemail hc hp hpr
    have hpk := profiles_pk_free db hfresh
    constructor <;>
      simp [adminCreateUser, hadmin, createUser, hemail, hc, insertProfile, hpk,
        hp, insertUserRole, hpr]

/-- Witness for the amended C3: a staff-role caller is turned away with
403 and an untouched state. -/
theorem provision_validation_amended_witness :
    adminCreateUser dbQr Faults.none' (some 1) reqStudent =
      ⟨⟨403, .error "Admin access required"⟩, dbQr, []⟩ :=
  provision_validation_amended.1 dbQr Faults.none' 1 reqStudent (by decide)

/-- Witness for C8 at a concrete database and request. -/
theorem register_upload_failure_nonfatal_witness :
    (registerUser dbAdmin Faults.none' (some 1) reqStudent true true).ok = true ∧
    (registerUser dbAdmin Faults.none' (some 1) reqStudent true true).userId = some 2 := by
  have h := (register_upload_failure_nonfatal dbAdmin Faults.none' 1 reqStudent
    ⟨"STU20250001", "CS", 1, none⟩ (by decide) (by decide) (by decide)
    rfl rfl rfl rfl rfl (by decide) rfl).1
  rw [h]
  exact ⟨rfl, rfl⟩

end WebPortal
